import Mathlib

/-!
Shallow embedding of src/message.ts of the wechaty repository: the abstract
Message facade over a puppet transport. The concrete bodies found in the
source (the constructor, toString, and the static find / findAll) are
translated directly. The abstract accessors (to, room, from, self,
mentioned, ready, say) have no bodies in the repository files, so they are
modelled from the specification; each such definition says so in its doc
comment.
-/

/-- An opaque raw backend-native object, the Object branch of the
constructor parameter objOrId. -/
structure RawObj where
  payload : String
deriving DecidableEq, Repr

/-- The argument of the Message constructor, objOrId of type Object or
string. The static findAll additionally passes the number literals 1 and 2
through an any-cast, so number values are representable as well. -/
inductive ObjOrId where
  | obj (o : RawObj)
  | strId (s : String)
  | num (n : Nat)
deriving DecidableEq, Repr

/-- A Message instance as the constructor builds it: the constructor stores
objOrId and nothing else; every other field lives behind abstract
accessors backed by the transport. -/
structure Message where
  objOrId : ObjOrId
deriving DecidableEq, Repr

/-- World state outside the facade: the requests issued to the puppet
transport, and the lines written to the passive logging sink. -/
structure World where
  transportRequests : List String
  logLines : List String
deriving DecidableEq, Repr

/-- The constructor body: it calls super, writes one silly-level log line
via the logging collaborator, and stores the argument. It issues no
transport request. -/
def Message.construct (objOrId : ObjOrId) (w : World) : Message × World :=
  (⟨objOrId⟩, { w with logLines := w.logLines ++ ["Message constructor()"] })

/-- The toString method: it returns the template literal Message for every
instance. -/
def Message.toString (_ : Message) : String :=
  "Message"

/-- A query object passed to the static find / findAll; the source leaves
its type implicit and never inspects its content. -/
structure Query where
  raw : String
deriving DecidableEq, Repr

/-- The resolved value of the static findAll: the source always resolves to
the fixed placeholder list built by new this(1) and new this(2). -/
def Message.findAll (_query : Query) : List Message :=
  [⟨ObjOrId.num 1⟩, ⟨ObjOrId.num 2⟩]

/-- A JavaScript runtime value as it appears in the static find: either
undefined or a Message instance. -/
inductive JsVal where
  | undefined
  | msg (m : Message)
deriving DecidableEq, Repr

/-- JavaScript property access p[0] performed on the Promise object that
findAll returns: the source omits await, and a Promise object has no
numeric index properties, so the access yields undefined whatever list the
promise will later resolve to. -/
def promiseIndex (_resolvedValue : List Message) (_i : Nat) : JsVal :=
  JsVal.undefined

/-- The resolved value of the static find, exactly as the source writes it:
it returns the index 0 of the un-awaited Promise object that findAll
returned. -/
def Message.find (query : Query) : JsVal :=
  promiseIndex (Message.findAll query) 0

/-- Modelled from the spec: find returns a single match, the first of the
result sequence of findAll; this is the intended, awaited behaviour that
the missing await in the source fails to implement. -/
def Message.findSpec (query : Query) : Option Message :=
  (Message.findAll query).head?

/-- A Contact entity: an opaque reference type with its own identity. -/
structure Contact where
  id : String
deriving DecidableEq, Repr

/-- A Room entity: an opaque reference type with its own identity. -/
structure Room where
  id : String
deriving DecidableEq, Repr

/-- The message classification enum MsgType; its schema file is not among
the repository files, so only the values named by the doc comments of the
source are modelled. -/
inductive MsgType where
  | text
  | location
  | recalled
  | app
deriving DecidableEq, Repr

/-- Modelled from the spec: the authoritative destination of a message with
a known destination is exactly one of a direct-chat contact or a room; the
source only declares the abstract accessors to and room. -/
inductive Destination where
  | direct (c : Contact)
  | inRoom (r : Room)
deriving DecidableEq, Repr

/-- Modelled from the spec: the lazy fields of a hydrated message, content,
sender, destination, type and mention metadata, fetched from the
transport. -/
structure MsgFields where
  content : String
  sender : Contact
  destination : Destination
  msgType : MsgType
  mentionMeta : Option (List Contact)
deriving DecidableEq, Repr

/-- Modelled from the spec: the getter overload of to returns the
destination contact, and null when the message is room-scoped. -/
def MsgFields.to (f : MsgFields) : Option Contact :=
  match f.destination with
  | Destination.direct c => some c
  | Destination.inRoom _ => none

/-- Modelled from the spec: the getter overload of room returns the room of
the message, and null when the message is a direct message. -/
def MsgFields.room (f : MsgFields) : Option Room :=
  match f.destination with
  | Destination.direct _ => none
  | Destination.inRoom r => some r

/-- Modelled from the spec: the getter overload of from returns the sender
contact; the name fromContact is used because Lean reserves the word
from. -/
def MsgFields.fromContact (f : MsgFields) : Contact :=
  f.sender

/-- Modelled from the spec: the accessory base owns the identity of the
logged-in account. -/
structure PuppetAccessory where
  userSelf : Contact
deriving DecidableEq, Repr

/-- Modelled from the spec: self compares the sender identity of the
message against the identity of the logged-in account owned by the
accessory base. -/
def MsgFields.self (f : MsgFields) (acc : PuppetAccessory) : Bool :=
  f.fromContact == acc.userSelf

/-- Modelled from the spec: mentioned returns the ordered list of mentioned
contacts carried by the platform mention metadata, and the empty sequence
when there is no mention metadata. -/
def MsgFields.mentioned (f : MsgFields) : List Contact :=
  match f.mentionMeta with
  | some cs => cs
  | none => []

/-- Modelled from the spec: a facade is Unhydrated, with only the
constructor argument known, or Hydrated, with all lazy fields resolved. -/
inductive FacadeState where
  | unhydrated (objOrId : ObjOrId)
  | hydrated (objOrId : ObjOrId) (fields : MsgFields)
deriving DecidableEq, Repr

/-- Modelled from the spec: the transport resolves a stored id or raw
payload to the fields of the message, or cannot, for an unknown id or a
disconnected transport. -/
structure TransportStore where
  resolve : ObjOrId → Option MsgFields

/-- Modelled from the spec: ready hydrates all lazy fields from the
transport and resolves to the facade itself; on an already hydrated facade
it is a no-op returning the same resolved state; it fails when the
transport cannot resolve the underlying id. -/
def ready (t : TransportStore) : FacadeState → Except String FacadeState
  | FacadeState.unhydrated k =>
    match t.resolve k with
    | some f => Except.ok (FacadeState.hydrated k f)
    | none => Except.error "HydrationFailure"
  | FacadeState.hydrated k f => Except.ok (FacadeState.hydrated k f)

/-- A say payload: plain text or a structured media payload. -/
inductive SayPayload where
  | text (s : String)
  | media (file : String)
deriving DecidableEq, Repr

/-- Modelled from the spec: the transport either acknowledges a send
request or rejects it with a transport error. -/
inductive SendOutcome where
  | ack
  | rejected (err : String)
deriving DecidableEq, Repr

/-- Modelled from the spec: the behaviour of the transport on one send
request, given the payload and the optional replyTo narrowing. -/
structure SendTransport where
  outcome : SayPayload → Option (List Contact) → SendOutcome

/-- Modelled from the spec: say issues exactly one send request to the
transport, counted by the last component of the result; it resolves once
the transport acknowledges, and surfaces the transport error as a rejected
result when the send is rejected, leaving the facade state unchanged and
performing no retry at this layer. -/
def say (t : SendTransport) (m : FacadeState) (p : SayPayload)
    (replyTo : Option (List Contact)) :
    Except String Unit × FacadeState × Nat :=
  match t.outcome p replyTo with
  | SendOutcome.ack => (Except.ok (), m, 1)
  | SendOutcome.rejected e => (Except.error e, m, 1)

/-- The message fields used by the concrete witnesses below. -/
def demoFields : MsgFields :=
  { content := "dong"
    sender := ⟨"contact-1"⟩
    destination := Destination.direct ⟨"contact-2"⟩
    msgType := MsgType.text
    mentionMeta := none }

/-- The transport store used by the concrete witnesses below: it resolves
the string id abc and nothing else. -/
def demoStore : TransportStore :=
  ⟨fun k => if k = ObjOrId.strId "abc" then some demoFields else none⟩

/-- A transport that rejects every send request, used by a witness. -/
def rejectingTransport : SendTransport :=
  ⟨fun _ _ => SendOutcome.rejected "SendFailure"⟩

/-- C1: evaluating the code at a concrete query: find as written indexes
the un-awaited Promise object and resolves to undefined, while the first
element of the sequence findAll resolves to is the Message constructed
with the argument 1, so find does not resolve to the first element of the
findAll results. -/
theorem find_resolves_undefined_not_head :
    Message.find ⟨"q"⟩ = JsVal.undefined ∧
    Message.findSpec ⟨"q"⟩ = some ⟨ObjOrId.num 1⟩ :=
  ⟨rfl, rfl⟩

/-- C2 counterexample: at the concrete query with raw text q0, the sequence
findAll resolves to is not empty; it has exactly two elements. -/
theorem findAll_nonempty_at_q0 :
    (Message.findAll ⟨"q0"⟩).isEmpty = false ∧
    (Message.findAll ⟨"q0"⟩).length = 2 :=
  ⟨rfl, rfl⟩

/-- C2 amended: the static findAll never resolves to an empty result
sequence; for every query it resolves to a sequence of exactly two Message
instances. -/
theorem findAll_never_empty (q : Query) :
    (Message.findAll q).isEmpty = false ∧ (Message.findAll q).length = 2 :=
  ⟨rfl, rfl⟩

/-- C3: for every hydrated message with a known destination, exactly one of
the getters to and room is non-null, and to is null exactly when room is
non-null, that is, when the message is room-scoped. -/
theorem to_room_mutually_exclusive (f : MsgFields) :
    (f.to).isSome = (f.room).isNone ∧ (f.to).isNone = (f.room).isSome := by
  cases h : f.destination <;>
    simp [MsgFields.to, MsgFields.room, h]

/-- C4: ready is idempotent: after a first successful ready, calling ready
again is a no-op that resolves to the same hydrated state. -/
theorem ready_idempotent (t : TransportStore) (s s' : FacadeState)
    (h : ready t s = Except.ok s') : ready t s' = Except.ok s' := by
  cases s with
  | unhydrated k =>
    cases hr : t.resolve k with
    | none => simp [ready, hr] at h
    | some f =>
      simp [ready, hr] at h
      subst h
      rfl
  | hydrated k f =>
    simp [ready] at h
    subst h
    rfl

/-- C4 witness: the idempotence theorem applied at the concrete transport
store and a facade hydrated from the string id abc. -/
theorem ready_idempotent_witness :
    ready demoStore (FacadeState.hydrated (ObjOrId.strId "abc") demoFields) =
      Except.ok (FacadeState.hydrated (ObjOrId.strId "abc") demoFields) :=
  ready_idempotent demoStore (FacadeState.unhydrated (ObjOrId.strId "abc"))
    (FacadeState.hydrated (ObjOrId.strId "abc") demoFields) (by rfl)

/-- C5: the constructor issues no transport request and leaves the
transport state unchanged; it only stores the given object or id, writing
one line to the passive logging sink. -/
theorem construct_no_transport_io (objOrId : ObjOrId) (w : World) :
    ((Message.construct objOrId w).2).transportRequests =
      w.transportRequests ∧
    ((Message.construct objOrId w).1).objOrId = objOrId :=
  ⟨rfl, rfl⟩

/-- C6: self returns true if and only if the identity returned by from
equals the identity of the logged-in account. -/
theorem self_iff_from_is_user (f : MsgFields) (acc : PuppetAccessory) :
    f.self acc = true ↔ f.fromContact = acc.userSelf := by
  simp [MsgFields.self]

/-- C7: mentioned on a message with no mention metadata returns the empty
ordered sequence of contacts, never null; the return type is a list, so a
null result is not even representable. -/
theorem mentioned_empty_of_no_meta (f : MsgFields)
    (h : f.mentionMeta = none) : f.mentioned = [] := by
  simp [MsgFields.mentioned, h]

/-- C7 witness: the no-metadata theorem applied at the concrete message
fields, whose mention metadata is none. -/
theorem mentioned_empty_witness : demoFields.mentioned = [] :=
  mentioned_empty_of_no_meta demoFields rfl

/-- C8: when the transport rejects a say send, the failure surfaces to the
caller as a rejected result carrying the transport error, the facade state
is left unchanged, and exactly one send attempt is made, so there is no
partial side effect and no automatic retry at this layer. -/
theorem say_failure_no_side_effects (t : SendTransport) (m : FacadeState)
    (p : SayPayload) (replyTo : Option (List Contact)) (e : String)
    (h : t.outcome p replyTo = SendOutcome.rejected e) :
    say t m p replyTo = (Except.error e, m, 1) := by
  simp [say, h]

/-- C8 witness: the say-failure theorem applied at the concrete rejecting
transport, a text payload and an unhydrated facade. -/
theorem say_failure_witness :
    say rejectingTransport (FacadeState.unhydrated (ObjOrId.strId "abc"))
      (SayPayload.text "hello") none =
      (Except.error "SendFailure",
        FacadeState.unhydrated (ObjOrId.strId "abc"), 1) :=
  say_failure_no_side_effects rejectingTransport
    (FacadeState.unhydrated (ObjOrId.strId "abc"))
    (SayPayload.text "hello") none "SendFailure" rfl

/-- C9: toString returns the constant string Message for every instance,
whether it was constructed from a raw object or from a string id. -/
theorem toString_constant (m : Message) : m.toString = "Message" :=
  rfl

/-- C10: the static findAll is deterministic and independent of its input:
any two queries resolve to equal results, namely the list of exactly two
Message instances constructed with the arguments 1 and 2 respectively. -/
theorem findAll_constant (q1 q2 : Query) :
    Message.findAll q1 = Message.findAll q2 ∧
    Message.findAll q1 = [⟨ObjOrId.num 1⟩, ⟨ObjOrId.num 2⟩] :=
  ⟨rfl, rfl⟩
